import Mathlib

/-!
Shallow embedding of the Geo-Risk Sentry data-acquisition and risk-estimation
pipeline (`src/app.py`).  Network-bound inputs (the Yahoo Finance live fetch,
the Nominatim geocoder, the Open-Meteo weather response) are modelled as
explicit parameters: `none` stands for a raised-and-caught exception or an
empty result, `some` for the value the library returned.  Python floats are
modelled as rationals; Python dictionaries with optional keys are modelled as
records of `Option` fields.
-/

/-- Python `needle` is a prefix of `hay` (character lists). -/
def subAt : List Char → List Char → Bool
  | [], _ => true
  | _ :: _, [] => false
  | a :: as, b :: bs => a == b && subAt as bs

/-- Python substring test on character lists: `needle` occurs contiguously in `hay`. -/
def strFind (needle : List Char) : List Char → Bool
  | [] => subAt needle []
  | c :: t => subAt needle (c :: t) || strFind needle t

/-- Python `needle in hay` for strings (contiguous substring containment). -/
def pyIn (needle hay : String) : Bool := strFind needle.data hay.data

/-- The company-info dictionary returned by `yf.Ticker(...).info`, by the curated
`DEMO_DATA` table, or by the generic fallback.  Every key the pipeline reads is a
field; a key possibly missing from the Python dict is an `Option`. -/
structure Info where
  longName : Option String
  symbol : Option String
  sector : Option String
  marketCap : Option ℚ
  currency : Option String
  city : Option String
  country : Option String
  totalRevenue : Option ℚ
  beta : Option ℚ
  esgTotal : Option ℚ
deriving DecidableEq, Repr

/-- `DEMO_DATA["ASML"]` from `src/app.py`. -/
def ASML_INFO : Info :=
  { longName := some "ASML Holding N.V.", symbol := none, sector := some "Technology",
    marketCap := some 380000000000, currency := some "EUR", city := some "Veldhoven",
    country := some "Netherlands", totalRevenue := some 21000000000, beta := some (13/10),
    esgTotal := some 14 }

/-- `DEMO_DATA["NHY.OL"]` from `src/app.py`. -/
def NHY_INFO : Info :=
  { longName := some "Norsk Hydro ASA", symbol := none, sector := some "Basic Materials",
    marketCap := some 130000000000, currency := some "NOK", city := some "Oslo",
    country := some "Norway", totalRevenue := some 150000000000, beta := some (11/10),
    esgTotal := some 25 }

/-- `DEMO_DATA["NESN.SW"]` from `src/app.py`. -/
def NESN_INFO : Info :=
  { longName := some "Nestlé S.A.", symbol := none, sector := some "Consumer Defensive",
    marketCap := some 260000000000, currency := some "CHF", city := some "Vevey",
    country := some "Switzerland", totalRevenue := some 93000000000, beta := some (6/10),
    esgTotal := some 21 }

/-- `DEMO_DATA["NOVN.SW"]` from `src/app.py`. -/
def NOVN_INFO : Info :=
  { longName := some "Novartis AG", symbol := none, sector := some "Healthcare",
    marketCap := some 200000000000, currency := some "CHF", city := some "Basel",
    country := some "Switzerland", totalRevenue := some 45000000000, beta := some (5/10),
    esgTotal := some 16 }

/-- `DEMO_DATA["SHELL"]` from `src/app.py`. -/
def SHELL_INFO : Info :=
  { longName := some "Shell PLC", symbol := none, sector := some "Energy",
    marketCap := some 210000000000, currency := some "USD", city := some "London",
    country := some "UK", totalRevenue := some 316000000000, beta := some (9/10),
    esgTotal := some 34 }

/-- `DEMO_DATA["EQNR"]` from `src/app.py`. -/
def EQNR_INFO : Info :=
  { longName := some "Equinor ASA", symbol := none, sector := some "Energy",
    marketCap := some 90000000000, currency := some "USD", city := some "Stavanger",
    country := some "Norway", totalRevenue := some 100000000000, beta := some (8/10),
    esgTotal := some 28 }

/-- `DEMO_DATA["TSLA"]` from `src/app.py`. -/
def TSLA_INFO : Info :=
  { longName := some "Tesla Inc.", symbol := none, sector := some "Consumer Cyclical",
    marketCap := some 700000000000, currency := some "USD", city := some "Austin",
    country := some "United States", totalRevenue := some 96000000000, beta := some 2,
    esgTotal := some 26 }

/-- The curated financial fallback table `DEMO_DATA` of `src/app.py`, as an
association list in the dictionary's insertion (= iteration) order. -/
def DEMO_DATA : List (String × Info) :=
  [("ASML", ASML_INFO), ("NHY.OL", NHY_INFO), ("NESN.SW", NESN_INFO),
   ("NOVN.SW", NOVN_INFO), ("SHELL", SHELL_INFO), ("EQNR", EQNR_INFO),
   ("TSLA", TSLA_INFO)]

/-- `fetch_live_data` of `src/app.py`: `raw` is what `yf.Ticker(t).info` produced
(`none` when the library raised).  A record carrying neither `longName` nor
`symbol` is rejected as an empty/failed fetch. -/
def fetch_live_data (raw : Option Info) : Option Info :=
  match raw with
  | none => none
  | some info =>
    if info.longName.isNone && info.symbol.isNone then none else some info

/-- The generic tier-3 fallback profile built by `get_stock_data_safe`. -/
def generic_data (ticker : String) : Info :=
  { longName := some (ticker ++ " (Simulated)"), symbol := none,
    sector := some "Industrial (Unknown)", marketCap := some 10000000000,
    currency := some "USD", city := some "Unknown", country := some "Unknown",
    totalRevenue := some 5000000000, beta := some 1, esgTotal := some 25 }

/-- Python `s.lower()`, as the character list of the lowered string. -/
def pyLower (s : String) : List Char := s.data.map Char.toLower

/-- The fuzzy-match condition of `get_stock_data_safe`:
`ticker.lower() in k.lower() or k.lower() in ticker.lower()`. -/
def fuzzyKey (ticker k : String) : Bool :=
  strFind (pyLower ticker) (pyLower k) || strFind (pyLower k) (pyLower ticker)

/-- `get_stock_data_safe` of `src/app.py`: live fetch, then exact `DEMO_DATA`
lookup, then first fuzzy match in table order, then the generic fallback.
Returns the profile and the `is_demo_mode` flag (the live `stock` handle is
dropped from the model). -/
def get_stock_data_safe (ticker : String) (live : Option Info) : Info × Bool :=
  match fetch_live_data live with
  | some info => (info, false)
  | none =>
    match DEMO_DATA.find? (fun kv => kv.1 == ticker) with
    | some kv => (kv.2, true)
    | none =>
      match DEMO_DATA.find? (fun kv => fuzzyKey ticker kv.1) with
      | some kv => (kv.2, true)
      | none => (generic_data ticker, true)

/-- One curated facility entry of `ASSET_DB` (name, latitude, longitude). -/
structure AssetRecord where
  name : String
  lat : ℚ
  lon : ℚ
deriving DecidableEq, Repr

/-- The two curated facilities `ASSET_DB` holds per ticker. -/
structure AssetEntry where
  factory : AssetRecord
  logistics : AssetRecord
deriving DecidableEq, Repr

/-- `ASSET_DB["TSLA"]` from `src/app.py`. -/
def TSLA_ASSETS : AssetEntry :=
  ⟨⟨"Gigafactory Berlin-Brandenburg", 523936/10000, 137984/10000⟩,
   ⟨"Port of Zeebrugge (Major Import Hub)", 513328/10000, 32064/10000⟩⟩

/-- `ASSET_DB["NHY.OL"]` from `src/app.py`. -/
def NHY_ASSETS : AssetEntry :=
  ⟨⟨"Sunndal Aluminum Smelter (Largest in Europe)", 626753/10000, 85627/10000⟩,
   ⟨"Port of Sunndalsøra", 626790/10000, 85400/10000⟩⟩

/-- `ASSET_DB["ASML"]` from `src/app.py`. -/
def ASML_ASSETS : AssetEntry :=
  ⟨⟨"Veldhoven Fabrication Plant", 514082/10000, 54184/10000⟩,
   ⟨"Eindhoven Airport Cargo Hub", 514584/10000, 53913/10000⟩⟩

/-- `ASSET_DB["SHELL"]` from `src/app.py`. -/
def SHELL_ASSETS : AssetEntry :=
  ⟨⟨"Pernis Refinery (Largest in Europe)", 518833/10000, 43833/10000⟩,
   ⟨"Port of Rotterdam", 519500/10000, 41333/10000⟩⟩

/-- `ASSET_DB["EQNR"]` from `src/app.py`. -/
def EQNR_ASSETS : AssetEntry :=
  ⟨⟨"Mongstad Refinery", 608080/10000, 50380/10000⟩,
   ⟨"Kollsnes Gas Processing", 605500/10000, 48333/10000⟩⟩

/-- `ASSET_DB["NOVN.SW"]` from `src/app.py`. -/
def NOVN_ASSETS : AssetEntry :=
  ⟨⟨"Stein Sterile Manufacturing Site", 475422/10000, 79536/10000⟩,
   ⟨"Basel Campus Supply Hub", 475623/10000, 75756/10000⟩⟩

/-- `ASSET_DB["NESN.SW"]` from `src/app.py`. -/
def NESN_ASSETS : AssetEntry :=
  ⟨⟨"Nespresso Production Centre (Orbe)", 467237/10000, 65362/10000⟩,
   ⟨"Distribution Center Avenches", 468800/10000, 70400/10000⟩⟩

/-- The curated coordinate table `ASSET_DB` of `src/app.py`, in the dictionary's
insertion order. -/
def ASSET_DB : List (String × AssetEntry) :=
  [("TSLA", TSLA_ASSETS), ("NHY.OL", NHY_ASSETS), ("ASML", ASML_ASSETS),
   ("SHELL", SHELL_ASSETS), ("EQNR", EQNR_ASSETS), ("NOVN.SW", NOVN_ASSETS),
   ("NESN.SW", NESN_ASSETS)]

/-- The three values of the sidebar asset-layer selectbox. -/
inductive AssetLayer where
  | hq
  | factory
  | logistics
deriving DecidableEq, Repr

/-- The location-related variables of the main script after the geolocation block
(section B of `src/app.py`): `lat`/`lon` jointly (the geocoder returns both or
neither, and the curated override sets both), `location_name`, `asset_label`,
`is_exact_match`. -/
structure LocState where
  coords : Option (ℚ × ℚ)
  location_name : String
  asset_label : String
  is_exact_match : Bool
deriving DecidableEq, Repr

/-- Sections B of the main script of `src/app.py`: geocode the HQ city (the
geocoder's answer is the parameter `geo`, `none` on error or no-match), then
override with the curated `ASSET_DB` record when the ticker has one and a
factory/logistics layer is requested. -/
def resolve_location (ticker : String) (asset_type : AssetLayer) (info : Info)
    (geo : Option (ℚ × ℚ)) : LocState :=
  let city := info.city.getD "Unknown"
  let base : LocState :=
    { coords := geo, location_name := city ++ " (HQ)",
      asset_label := "corporate headquarters", is_exact_match := false }
  match ASSET_DB.find? (fun kv => kv.1 == ticker) with
  | none => base
  | some kv =>
    match asset_type with
    | .factory =>
      { coords := some (kv.2.factory.lat, kv.2.factory.lon),
        location_name := kv.2.factory.name,
        asset_label := "primary manufacturing facility", is_exact_match := true }
    | .logistics =>
      { coords := some (kv.2.logistics.lat, kv.2.logistics.lon),
        location_name := kv.2.logistics.name,
        asset_label := "logistics hub", is_exact_match := true }
    | .hq => base

/-- Section C of the main script of `src/app.py`:

```
if lat:
    rain, wind = get_live_weather_risk(lat, lon)
else:
    rain, wind = 0, 0
    lat, lon = 59.91, 10.75  # Default Fallback
```

`weather` is the weather fetcher; Python truthiness makes `lat = None` and
`lat = 0.0` take the fallback branch.  Returns the final `(lat, lon)` pair and
the `(rain, wind)` pair. -/
def weather_step (coords : Option (ℚ × ℚ)) (weather : ℚ → ℚ → ℚ × ℚ) :
    Option (ℚ × ℚ) × (ℚ × ℚ) :=
  match coords with
  | some (l, o) =>
    if l = 0 then (some (5991/100, 1075/100), (0, 0))
    else (some (l, o), weather l o)
  | none => (some (5991/100, 1075/100), (0, 0))

/-- The `daily` block of an Open-Meteo response; either list may be missing. -/
structure DailyBlock where
  precipitation_sum : Option (List ℚ)
  windspeed_10m_max : Option (List ℚ)
deriving DecidableEq, Repr

/-- A parsed Open-Meteo JSON response; the `daily` object may be missing. -/
structure WeatherResponse where
  daily : Option DailyBlock
deriving DecidableEq, Repr

/-- `get_live_weather_risk` of `src/app.py`.  `resp` is the parsed JSON of the
Open-Meteo call (`none` when the request or JSON decoding raised).  Any missing
key or empty list raises inside the `try`, and the `except` returns `(0, 0)`. -/
def get_live_weather_risk (resp : Option WeatherResponse) : ℚ × ℚ :=
  match resp with
  | none => (0, 0)
  | some r =>
    match r.daily with
    | none => (0, 0)
    | some d =>
      match d.precipitation_sum, d.windspeed_10m_max with
      | some ps, some ws =>
        match ps.head?, ws.head? with
        | some rain_today, some wind_today => (rain_today, wind_today)
        | _, _ => (0, 0)
      | _, _ => (0, 0)

/-- The vulnerability block of `calculate_revenue_at_risk` in `src/app.py`:
`any(x in sector for x in [...])`, first branch that matches wins. -/
def vulnerability (sector : String) : ℚ :=
  if (["Energy", "Basic Materials", "Industrials", "Utilities"]).any
      (fun x => pyIn x sector) then 1
  else if (["Technology", "Communication", "Financial"]).any
      (fun x => pyIn x sector) then 3/10
  else 5/10

/-- The weather-logic block of `calculate_revenue_at_risk` in `src/app.py`:
`if rain_mm >= 50: 0.50 elif rain_mm >= 20: 0.15 elif rain_mm >= 5: 0.02 else 0.0`. -/
def disruption_pct (rain_mm : ℚ) : ℚ :=
  if rain_mm ≥ 50 then 50/100
  else if rain_mm ≥ 20 then 15/100
  else if rain_mm ≥ 5 then 2/100
  else 0

/-- `calculate_revenue_at_risk` of `src/app.py`: returns
`(daily_revenue, estimated_loss, disruption_pct)`, or `(None, None, None)` when
`info` has no `totalRevenue`. -/
def calculate_revenue_at_risk (info : Info) (rain_mm : ℚ) :
    Option ℚ × Option ℚ × Option ℚ :=
  match info.totalRevenue with
  | none => (none, none, none)
  | some revenue =>
    let daily_revenue := revenue / 365
    let sector := info.sector.getD "Unknown"
    let vul := vulnerability sector
    let dis := disruption_pct rain_mm
    (some daily_revenue, some (daily_revenue * vul * dis), some dis)

/-- Modelled from the spec (§4.1 step 3, §8): the fuzzy lookup described by the
specification — "case-insensitive substring match of the requested ticker against
curated table keys in either direction (requested-in-key or key-in-requested);
first match wins, table iteration order defines tie-break". -/
def fuzzy_lookup_spec (ticker : String) : Option Info :=
  (DEMO_DATA.find? (fun kv =>
    strFind (pyLower ticker) (pyLower kv.1) || strFind (pyLower kv.1) (pyLower ticker))).map
    (fun kv => kv.2)

/-- Modelled from the spec (§4.5 step 3): the precipitation-disruption step
function as the specification words it — "rain ≥ 50mm → 0.50; ≥20mm → 0.15;
≥5mm → 0.02; else 0.0", inclusive lower bounds. -/
def disruption_spec (rain : ℚ) : ℚ :=
  if 50 ≤ rain then 50/100
  else if 20 ≤ rain then 15/100
  else if 5 ≤ rain then 2/100
  else 0

/-- Modelled from the spec (§4.5 step 2): sector vulnerability as an ordered
first-match rule list — "{Energy, Basic Materials, Industrials, Utilities} → 1.0;
{Technology, Communication, Financial} → 0.3; all else → 0.5". -/
def sectorRules : List (List String × ℚ) :=
  [(["Energy", "Basic Materials", "Industrials", "Utilities"], 1),
   (["Technology", "Communication", "Financial"], 3/10)]

/-- Modelled from the spec (§4.5 step 2): first matching rule wins, default 0.5. -/
def vulnerability_spec (sector : String) : ℚ :=
  match sectorRules.find? (fun r => r.1.any (fun x => pyIn x sector)) with
  | some r => r.2
  | none => 5/10

/-- A live-fetch record as Yahoo returns for thinly covered tickers: a `symbol`
key but none of the profile fields.  It passes `fetch_live_data`'s validation
(`'longName' not in info and 'symbol' not in info`). -/
def LIVE_PARTIAL : Info :=
  { longName := none, symbol := some "XX", sector := none, marketCap := none,
    currency := none, city := none, country := none, totalRevenue := none,
    beta := none, esgTotal := none }

/-- The §8 scenario profile: revenue 36,500,000,000, sector Energy. -/
def ENERGY_EXAMPLE : Info :=
  { longName := some "Example Corp", symbol := none, sector := some "Energy",
    marketCap := none, currency := some "USD", city := some "Oslo",
    country := some "Norway", totalRevenue := some 36500000000, beta := none,
    esgTotal := none }

example : get_stock_data_safe "nhy" none = (NHY_INFO, true) := rfl
example : get_stock_data_safe "ASML" none = (ASML_INFO, true) := rfl
example : get_stock_data_safe "ZZZ" none = (generic_data "ZZZ", true) := rfl
example : vulnerability "Energy" = 1 := rfl
example : calculate_revenue_at_risk ENERGY_EXAMPLE 60
    = (some 100000000, some 50000000, some (50/100)) := by norm_num [calculate_revenue_at_risk, vulnerability, disruption_pct, ENERGY_EXAMPLE, pyIn, pyLower, strFind, subAt]

/-! ## Theorems -/

/-- Every entry of the curated `DEMO_DATA` table carries sector, currency, city
and country. -/
theorem demo_entries_populated :
    ∀ kv ∈ DEMO_DATA, kv.2.sector.isSome = true ∧ kv.2.currency.isSome = true ∧
      kv.2.city.isSome = true ∧ kv.2.country.isSome = true := by
  intro kv h
  simp only [DEMO_DATA, List.mem_cons, List.not_mem_nil, or_false] at h
  rcases h with rfl | rfl | rfl | rfl | rfl | rfl | rfl <;> exact ⟨rfl, rfl, rfl, rfl⟩

/-- Unfolding of `get_stock_data_safe` when the live fetch yields nothing. -/
theorem get_stock_data_safe_of_live_none {ticker : String} {live : Option Info}
    (h : fetch_live_data live = none) :
    get_stock_data_safe ticker live =
      match DEMO_DATA.find? (fun kv => kv.1 == ticker) with
      | some kv => (kv.2, true)
      | none =>
        match DEMO_DATA.find? (fun kv => fuzzyKey ticker kv.1) with
        | some kv => (kv.2, true)
        | none => (generic_data ticker, true) := by
  unfold get_stock_data_safe
  rw [h]

/-- C1 (counterexample): the claim "for every ticker string, the returned profile
record has non-absent sector, currency, city, and country fields" is false: a
live-fetch record that passes validation with only a `symbol` key is returned
as-is, with sector, currency, city and country all absent. -/
theorem c1_counterexample :
    fetch_live_data (some LIVE_PARTIAL) = some LIVE_PARTIAL ∧
    (get_stock_data_safe "XX" (some LIVE_PARTIAL)).1.sector = none ∧
    (get_stock_data_safe "XX" (some LIVE_PARTIAL)).1.currency = none ∧
    (get_stock_data_safe "XX" (some LIVE_PARTIAL)).1.city = none ∧
    (get_stock_data_safe "XX" (some LIVE_PARTIAL)).1.country = none :=
  ⟨rfl, rfl, rfl, rfl, rfl⟩

/-- C1 (amended): `get_stock_data_safe` is total (never raises), and whenever the
live fetch fails — the library raised or returned an empty record — the resolver
degrades to the curated, fuzzy or synthetic tier: the returned profile then has
non-absent sector, currency, city and country, and is flagged as demo data. -/
theorem c1_fallback_fully_populated (ticker : String) (live : Option Info)
    (h : fetch_live_data live = none) :
    (get_stock_data_safe ticker live).1.sector.isSome = true ∧
    (get_stock_data_safe ticker live).1.currency.isSome = true ∧
    (get_stock_data_safe ticker live).1.city.isSome = true ∧
    (get_stock_data_safe ticker live).1.country.isSome = true ∧
    (get_stock_data_safe ticker live).2 = true := by
  rw [get_stock_data_safe_of_live_none h]
  cases h1 : DEMO_DATA.find? (fun kv => kv.1 == ticker) with
  | some kv =>
    have := demo_entries_populated kv (List.mem_of_find?_eq_some h1)
    exact ⟨this.1, this.2.1, this.2.2.1, this.2.2.2, rfl⟩
  | none =>
    cases h2 : DEMO_DATA.find? (fun kv => fuzzyKey ticker kv.1) with
    | some kv =>
      have := demo_entries_populated kv (List.mem_of_find?_eq_some h2)
      exact ⟨this.1, this.2.1, this.2.2.1, this.2.2.2, rfl⟩
    | none => exact ⟨rfl, rfl, rfl, rfl, rfl⟩

/-- C1 witness: the amended theorem at ticker "XYZQ" with a failed live fetch. -/
theorem c1_fallback_fully_populated_witness :
    fetch_live_data none = none ∧
    ((get_stock_data_safe "XYZQ" none).1.sector.isSome = true ∧
     (get_stock_data_safe "XYZQ" none).1.currency.isSome = true ∧
     (get_stock_data_safe "XYZQ" none).1.city.isSome = true ∧
     (get_stock_data_safe "XYZQ" none).1.country.isSome = true ∧
     (get_stock_data_safe "XYZQ" none).2 = true) :=
  ⟨rfl, c1_fallback_fully_populated "XYZQ" none rfl⟩

/-- C2: when the live fetch fails and the ticker is an exact key of the curated
table, `get_stock_data_safe` returns exactly that curated entry (with the demo
flag set) — the fuzzy and synthetic tiers are not consulted, because the exact
lookup is checked first. -/
theorem c2_exact_curated_wins (ticker : String) (live : Option Info)
    (kv : String × Info)
    (hlive : fetch_live_data live = none)
    (hfind : DEMO_DATA.find? (fun p => p.1 == ticker) = some kv) :
    get_stock_data_safe ticker live = (kv.2, true) ∧ kv.1 = ticker ∧
    kv ∈ DEMO_DATA := by
  refine ⟨?_, ?_, List.mem_of_find?_eq_some hfind⟩
  · rw [get_stock_data_safe_of_live_none hlive, hfind]
  · have := List.find?_some hfind
    exact eq_of_beq this

/-- C2 witness: the exact curated match for "ASML" with a failed live fetch. -/
theorem c2_exact_curated_wins_witness :
    fetch_live_data none = none ∧
    DEMO_DATA.find? (fun p => p.1 == "ASML") = some ("ASML", ASML_INFO) ∧
    (get_stock_data_safe "ASML" none = (ASML_INFO, true) ∧ "ASML" = "ASML" ∧
     ("ASML", ASML_INFO) ∈ DEMO_DATA) :=
  ⟨rfl, rfl, c2_exact_curated_wins "ASML" none ("ASML", ASML_INFO) rfl rfl⟩

/-- C3: when the live fetch fails and no exact curated key equals the ticker,
`get_stock_data_safe` returns the first entry of `DEMO_DATA` (in table iteration
order, which is what `List.find?` computes) whose key matches the requested
ticker by case-insensitive substring containment in either direction. -/
theorem c3_fuzzy_first_match (ticker : String) (live : Option Info)
    (kv : String × Info)
    (hlive : fetch_live_data live = none)
    (hexact : DEMO_DATA.find? (fun p => p.1 == ticker) = none)
    (hfuzzy : DEMO_DATA.find? (fun p => fuzzyKey ticker p.1) = some kv) :
    get_stock_data_safe ticker live = (kv.2, true) ∧ kv ∈ DEMO_DATA ∧
    (strFind (pyLower ticker) (pyLower kv.1)
      || strFind (pyLower kv.1) (pyLower ticker)) = true ∧
    (get_stock_data_safe ticker live).1 = (fuzzy_lookup_spec ticker).getD
      (get_stock_data_safe ticker live).1 := by
  have hmain : get_stock_data_safe ticker live = (kv.2, true) := by
    rw [get_stock_data_safe_of_live_none hlive, hexact, hfuzzy]
  have hcond := List.find?_some hfuzzy
  refine ⟨hmain, List.mem_of_find?_eq_some hfuzzy, hcond, ?_⟩
  have hspec : fuzzy_lookup_spec ticker = some kv.2 := by
    unfold fuzzy_lookup_spec
    have : (fun p : String × Info => fuzzyKey ticker p.1)
        = fun p : String × Info =>
            strFind (pyLower ticker) (pyLower p.1)
              || strFind (pyLower p.1) (pyLower ticker) := rfl
    rw [← this, hfuzzy, Option.map_some']
  rw [hspec, hmain, Option.getD_some]

/-- C3 witness: the lowercase query "nhy" fuzzy-matches the curated key "NHY.OL"
(first match in table order). -/
theorem c3_fuzzy_first_match_witness :
    fetch_live_data none = none ∧
    DEMO_DATA.find? (fun p => p.1 == "nhy") = none ∧
    DEMO_DATA.find? (fun p => fuzzyKey "nhy" p.1) = some ("NHY.OL", NHY_INFO) ∧
    get_stock_data_safe "nhy" none = (NHY_INFO, true) :=
  ⟨rfl, rfl, rfl, (c3_fuzzy_first_match "nhy" none ("NHY.OL", NHY_INFO) rfl rfl rfl).1⟩

/-- C4: for a ticker with a curated `ASSET_DB` record and the factory layer,
`resolve_location` returns the curated name and coordinates with
`is_exact_match = true`, for every possible geocoder answer `geo`. -/
theorem c4_factory_override (ticker : String) (entry : String × AssetEntry)
    (info : Info) (geo : Option (ℚ × ℚ))
    (h : ASSET_DB.find? (fun kv => kv.1 == ticker) = some entry) :
    resolve_location ticker .factory info geo =
      { coords := some (entry.2.factory.lat, entry.2.factory.lon),
        location_name := entry.2.factory.name,
        asset_label := "primary manufacturing facility", is_exact_match := true } := by
  unfold resolve_location
  rw [h]

/-- C4 witness: the TSLA factory record beats any geocoder answer. -/
theorem c4_factory_override_witness :
    ASSET_DB.find? (fun kv => kv.1 == "TSLA") = some ("TSLA", TSLA_ASSETS) ∧
    resolve_location "TSLA" .factory (generic_data "TSLA") (some (1, 2)) =
      { coords := some (TSLA_ASSETS.factory.lat, TSLA_ASSETS.factory.lon),
        location_name := TSLA_ASSETS.factory.name,
        asset_label := "primary manufacturing facility", is_exact_match := true } :=
  ⟨rfl, c4_factory_override "TSLA" ("TSLA", TSLA_ASSETS) (generic_data "TSLA")
    (some (1, 2)) rfl⟩

/-- Helper: the coordinate pair produced by the weather-fallback block of the
main script is always present. -/
theorem weather_step_isSome (coords : Option (ℚ × ℚ)) (w : ℚ → ℚ → ℚ × ℚ) :
    ((weather_step coords w).1).isSome = true := by
  unfold weather_step
  rcases coords with _ | ⟨l, o⟩
  · rfl
  · dsimp only
    split <;> rfl

/-- Helper: an equator latitude (0) takes the fallback branch of the
weather-fallback block, whatever the weather fetcher would answer. -/
theorem weather_step_zero_lat (o : ℚ) (w : ℚ → ℚ → ℚ × ℚ) :
    weather_step (some (0, o)) w = (some (5991/100, 1075/100), (0, 0)) := by
  unfold weather_step
  simp

/-- C5: for every ticker, asset layer, profile, geocoder answer and weather
fetcher, the `(lat, lon)` pair that section C of the main script hands to the
dashboard is present (never absent): the fixed default pair is substituted
whenever every other resolution path failed.  In particular, with the HQ layer
and a failed geocoder the result is exactly the default pair with zero
conditions. -/
theorem c5_coords_always_present (ticker : String) (layer : AssetLayer)
    (info : Info) (geo : Option (ℚ × ℚ)) (weather : ℚ → ℚ → ℚ × ℚ) :
    ((weather_step (resolve_location ticker layer info geo).coords weather).1).isSome
      = true ∧
    weather_step (resolve_location ticker .hq info none).coords weather
      = (some (5991/100, 1075/100), (0, 0)) := by
  constructor
  · exact weather_step_isSome _ weather
  · have hc : (resolve_location ticker .hq info none).coords = none := by
      unfold resolve_location
      cases ASSET_DB.find? (fun kv => kv.1 == ticker) <;> rfl
    rw [hc]
    rfl

/-- C6: the weather fetch is all-or-nothing — either the response carries the
`daily` object with non-empty precipitation and wind lists and both observed
values are returned, or every returned field is the zero default; no partial
result and no propagated error exists. -/
theorem c6_weather_all_or_nothing (resp : Option WeatherResponse) :
    get_live_weather_risk resp = (0, 0) ∨
    ∃ ps ws rain_today wind_today,
      resp = some ⟨some ⟨some ps, some ws⟩⟩ ∧
      ps.head? = some rain_today ∧ ws.head? = some wind_today ∧
      get_live_weather_risk resp = (rain_today, wind_today) := by
  rcases resp with _ | ⟨_ | ⟨ps?, ws?⟩⟩
  · exact Or.inl rfl
  · exact Or.inl rfl
  · rcases ps? with _ | ps
    · exact Or.inl rfl
    · rcases ws? with _ | ws
      · exact Or.inl rfl
      · rcases ps with _ | ⟨rain, pt⟩
        · exact Or.inl rfl
        · rcases ws with _ | ⟨wind, wt⟩
          · exact Or.inl rfl
          · exact Or.inr ⟨rain :: pt, wind :: wt, rain, wind, rfl, rfl, rfl, rfl⟩

/-- C7: the precipitation-disruption computed by the estimator equals the spec's
step function with inclusive lower bounds; rain exactly 50mm yields 0.50 (not
0.15), and the function is monotone (non-decreasing) in rainfall. -/
theorem c7_disruption_step :
    (∀ rain : ℚ, disruption_pct rain = disruption_spec rain) ∧
    disruption_pct 50 = 50/100 ∧ disruption_pct 50 ≠ 15/100 ∧
    Monotone disruption_pct := by
  refine ⟨?_, by norm_num [disruption_pct], by norm_num [disruption_pct], ?_⟩
  · intro rain
    unfold disruption_pct disruption_spec
    rfl
  · intro a b hab
    unfold disruption_pct
    split_ifs <;> norm_num <;> linarith

/-- C8: the sector vulnerability factor is first-match over the spec's ordered
keyword rules (physical-asset keywords → 1.0, then service keywords → 0.3,
default 0.5); a sector matching keywords of both groups gets 1.0. -/
theorem c8_vulnerability_first_match :
    (∀ sector : String, vulnerability sector = vulnerability_spec sector) ∧
    vulnerability "Energy" = 1 ∧ vulnerability "Technology" = 3/10 ∧
    vulnerability "Energy Technology" = 1 ∧
    vulnerability "Consumer Defensive" = 5/10 := by
  refine ⟨?_, rfl, rfl, rfl, rfl⟩
  intro s
  unfold vulnerability vulnerability_spec sectorRules
  cases h1 : (["Energy", "Basic Materials", "Industrials", "Utilities"]).any
      (fun x => pyIn x s) <;>
    cases h2 : (["Technology", "Communication", "Financial"]).any
        (fun x => pyIn x s) <;>
      simp [List.find?, h1, h2]

/-- Helper: the sector vulnerability factor is never negative. -/
theorem vulnerability_nonneg (s : String) : 0 ≤ vulnerability s := by
  unfold vulnerability
  split_ifs <;> norm_num

/-- Helper: the precipitation disruption fraction is never negative. -/
theorem disruption_pct_nonneg (r : ℚ) : 0 ≤ disruption_pct r := by
  unfold disruption_pct
  split_ifs <;> norm_num

/-- C9: the estimator returns the absent triple exactly when revenue is absent;
with revenue present the estimated loss is `revenue / 365 × vulnerability ×
disruption` (non-negative for non-negative revenue); and the §8 Energy scenario
evaluates to daily revenue 100,000,000 and loss 50,000,000. -/
theorem c9_estimator :
    (∀ (info : Info) (rain : ℚ),
      ((calculate_revenue_at_risk info rain).2.1 = none ↔ info.totalRevenue = none)) ∧
    (∀ (info : Info) (rain rev : ℚ), info.totalRevenue = some rev →
      calculate_revenue_at_risk info rain =
        (some (rev / 365),
         some (rev / 365 * vulnerability (info.sector.getD "Unknown")
           * disruption_pct rain),
         some (disruption_pct rain)) ∧
      (0 ≤ rev →
        0 ≤ rev / 365 * vulnerability (info.sector.getD "Unknown")
          * disruption_pct rain)) ∧
    calculate_revenue_at_risk ENERGY_EXAMPLE 60
      = (some 100000000, some 50000000, some (50/100)) := by
  refine ⟨?_, ?_, ?_⟩
  · intro info rain
    cases h : info.totalRevenue <;> simp [calculate_revenue_at_risk, h]
  · intro info rain rev h
    refine ⟨by simp [calculate_revenue_at_risk, h], fun hrev => ?_⟩
    exact mul_nonneg (mul_nonneg (div_nonneg hrev (by norm_num))
      (vulnerability_nonneg _)) (disruption_pct_nonneg rain)
  · norm_num [calculate_revenue_at_risk, ENERGY_EXAMPLE, vulnerability,
      disruption_pct, pyIn, pyLower, strFind, subAt]

/-- C9 witness: the estimator theorem applied to the §8 Energy scenario profile. -/
theorem c9_estimator_witness :
    ENERGY_EXAMPLE.totalRevenue = some 36500000000 ∧ (0:ℚ) ≤ 36500000000 ∧
    calculate_revenue_at_risk ENERGY_EXAMPLE 60 =
      (some ((36500000000:ℚ) / 365),
       some ((36500000000:ℚ) / 365 * vulnerability (ENERGY_EXAMPLE.sector.getD "Unknown")
         * disruption_pct 60),
       some (disruption_pct 60)) ∧
    0 ≤ (36500000000:ℚ) / 365 * vulnerability (ENERGY_EXAMPLE.sector.getD "Unknown")
      * disruption_pct 60 := by
  have h := c9_estimator.2.1 ENERGY_EXAMPLE 60 36500000000 rfl
  exact ⟨rfl, by decide, h.1, h.2 (by decide)⟩

/-- C10: a geocoded latitude that is absent (geocoder error or no-match) or
exactly 0, with no curated override applying, is treated as a resolution
failure: the default coordinates (59.91, 10.75) are substituted and rain and
wind are exactly 0, for every weather fetcher — so the fetcher is never invoked
on the fallback path.  The HQ layer never has an override; for a ticker outside
`ASSET_DB` the same holds for every layer. -/
theorem c10_zero_latitude_fallback (ticker : String) (info : Info)
    (geo : Option (ℚ × ℚ)) (w : ℚ → ℚ → ℚ × ℚ)
    (hgeo : geo = none ∨ ∃ o, geo = some (0, o)) :
    (weather_step (resolve_location ticker .hq info geo).coords w
      = (some (5991/100, 1075/100), (0, 0))) ∧
    (ASSET_DB.find? (fun kv => kv.1 == ticker) = none →
      ∀ layer, weather_step (resolve_location ticker layer info geo).coords w
        = (some (5991/100, 1075/100), (0, 0))) := by
  have hstep : weather_step geo w = (some (5991/100, 1075/100), (0, 0)) := by
    rcases hgeo with rfl | ⟨o, rfl⟩
    · rfl
    · exact weather_step_zero_lat o w
  constructor
  · have hc : (resolve_location ticker .hq info geo).coords = geo := by
      unfold resolve_location
      cases ASSET_DB.find? (fun kv => kv.1 == ticker) <;> rfl
    rw [hc]
    exact hstep
  · intro h layer
    have hc : (resolve_location ticker layer info geo).coords = geo := by
      unfold resolve_location
      rw [h]
    rw [hc]
    exact hstep

/-- C10 witness: a ticker outside `ASSET_DB` and a weather fetcher that would
return (3, 4) if it were consulted, exercised on both fallback branches — an
absent geocoder answer at the HQ layer, and an equator latitude at the factory
layer. -/
theorem c10_zero_latitude_fallback_witness :
    ASSET_DB.find? (fun kv => kv.1 == "ZZZ") = none ∧
    weather_step (resolve_location "ZZZ" .hq (generic_data "ZZZ") none).coords
      (fun _ _ => (3, 4)) = (some (5991/100, 1075/100), (0, 0)) ∧
    weather_step (resolve_location "ZZZ" .factory (generic_data "ZZZ") (some (0, 5))).coords
      (fun _ _ => (3, 4)) = (some (5991/100, 1075/100), (0, 0)) :=
  ⟨rfl,
   (c10_zero_latitude_fallback "ZZZ" (generic_data "ZZZ") none
     (fun _ _ => (3, 4)) (Or.inl rfl)).1,
   (c10_zero_latitude_fallback "ZZZ" (generic_data "ZZZ") (some (0, 5))
     (fun _ _ => (3, 4)) (Or.inr ⟨5, rfl⟩)).2 rfl .factory⟩
